import Mathlib

/-!
# Verification of the insurance-cost prediction pipeline

Shallow embedding of the logical core of `src/app.py` (a Streamlit app):
unit conversion (BMI), categorical feature encoding, model invocation and
result classification.  Numbers are modelled as rationals; Python
exceptions (`KeyError`, `ZeroDivisionError`, failures of `open` /
`pickle.load`) are modelled with `Option` / `Except`.
-/

namespace MedApp

/-- Rounding to 2 decimal places, modelling Python's `round(x, 2)`
(tie-breaking is not exercised by any property below). -/
def round2 (q : ℚ) : ℚ := (round (q * 100) : ℚ) / 100

/-- `bmi_calculated = round(weight / ((height / 100) ** 2), 2)` — app.py line 55. -/
def computeBMI (heightCm weightKg : ℚ) : ℚ :=
  round2 (weightKg / ((heightCm / 100) ^ 2))

/-- Runtime behaviour of line 55: Python raises `ZeroDivisionError` when the
divisor `(height / 100) ** 2` is zero; otherwise the rounded BMI is produced.
There is no domain check in the code. -/
def computeBMIRun (heightCm weightKg : ℚ) : Option ℚ :=
  if (heightCm / 100) ^ 2 = 0 then none
  else some (computeBMI heightCm weightKg)

/-- `sex_num = 0 if sex == "Female" else 1` — app.py line 77. -/
def sex_num (sex : String) : ℕ := if sex = "Female" then 0 else 1

/-- `smoker_num = 0 if smoker == "No" else 1` — app.py line 78. -/
def smoker_num (smoker : String) : ℕ := if smoker = "No" then 0 else 1

/-- `region_map = {"southwest": 0, "southeast": 1, "northwest": 2, "northeast": 3}`
— app.py line 79; dictionary lookup yields `none` (Python: `KeyError`) on any
other key. -/
def region_map (r : String) : Option ℕ :=
  if r = "southwest" then some 0
  else if r = "southeast" then some 1
  else if r = "northwest" then some 2
  else if r = "northeast" then some 3
  else none

/-- Python's `str.lower()` (app.py line 80), modelled on the ASCII range:
each character is lower-cased individually.  On the region names the app
deals in (pure ASCII) this agrees with Python's full Unicode lowercasing. -/
def pyLower (s : String) : String := ⟨s.data.map Char.toLower⟩

/-- `region_num = region_map[region.lower()]` — app.py line 80. -/
def region_num (region : String) : Option ℕ := region_map (pyLower region)

/-- The numeric record assembled as `input_data` (app.py lines 82–85). -/
structure FeatureVector where
  age : ℕ
  sex : ℕ
  bmi : ℚ
  children : ℕ
  smoker : ℕ
  region : ℕ
deriving DecidableEq, Repr

/-- Raw user-facing inputs collected by the form (app.py lines 53–71). -/
structure RawInput where
  heightCm : ℚ
  weightKg : ℚ
  age : ℕ
  sex : String
  children : ℕ
  smoker : String
  region : String

/-- The categorical-encoding step (app.py lines 77–85): encode sex, smoker
and region and assemble the feature vector; a failed region lookup aborts
the step (Python: uncaught `KeyError`). -/
def encode (inp : RawInput) (bmi : ℚ) : Option FeatureVector :=
  (region_num inp.region).map fun r =>
    { age := inp.age, sex := sex_num inp.sex, bmi := bmi,
      children := inp.children, smoker := smoker_num inp.smoker, region := r }

/-- The three qualitative tiers of app.py lines 100–105. -/
inductive CostTier
  | Low
  | Moderate
  | High
deriving DecidableEq, Repr

/-- The tier branching of app.py lines 100–105:
`if cost < 5000 … elif 5000 <= cost < 15000 … else …`. -/
def classify (cost : ℚ) : CostTier :=
  if cost < 5000 then .Low
  else if 5000 ≤ cost ∧ cost < 15000 then .Moderate
  else .High

end MedApp

namespace MedApp

/-- The loaded regression artifact, as a black-box inference function
(`model.predict` on a single row, app.py line 90 / `prediction[0]` line 97). -/
def Predictor := FeatureVector → ℚ

/-- Startup failure of `load_model` (app.py lines 15–23): the artifact file
missing, unreadable or undeserializable. -/
inductive StartupError
  | startupFatal
deriving DecidableEq, Repr

/-- `load_model` (app.py lines 16–21): `open` + `pickle.load` of the artifact
file.  The file system and pickle format are abstracted: the available,
deserializable artifact (if any) is the `Option Predictor` argument; `none`
models a missing, unreadable or undeserializable file, on which Python
raises out of `load_model`. -/
def load_model (file : Option Predictor) : Except StartupError Predictor :=
  match file with
  | some m => Except.ok m
  | none => Except.error StartupError.startupFatal

/-- Process state after the module-level `model = load_model()` (app.py
line 23): just the loaded, immutable artifact. -/
structure ProcState where
  model : Predictor

/-- Process startup (app.py line 23, run at import time, before any UI or
prediction code): load the model or die. -/
def startProcess (file : Option Predictor) : Except StartupError ProcState :=
  (load_model file).map ProcState.mk

/-- `prediction = model.predict(input_data)` / `cost = prediction[0]`
(app.py lines 90, 97): inference reads the loaded artifact and changes no
state, so the call returns the value and the unchanged process state. -/
def predict (st : ProcState) (fv : FeatureVector) : ℚ × ProcState :=
  (st.model fv, st)

/-- A predict call as seen from process startup: it can only proceed in a
process whose startup succeeded. -/
def runPredict (s : Except StartupError ProcState) (fv : FeatureVector) :
    Except StartupError ℚ :=
  s.map fun st => (predict st fv).1

/-- The button handler (app.py lines 75–105): encode the inputs, run the
model, read `prediction[0]` as `cost`, and branch on `cost` for the tier —
nothing is applied to `cost` in between. -/
def runPipeline (st : ProcState) (inp : RawInput) : Option (ℚ × CostTier) :=
  (encode inp (computeBMI inp.heightCm inp.weightKg)).map fun fv =>
    (((predict st fv).1), classify ((predict st fv).1))

end MedApp

namespace MedApp

/-! ## General lemmas about rounding -/

lemma round_mono_rat {x y : ℚ} (h : x ≤ y) : round x ≤ round y := by
  rw [round_eq, round_eq]
  exact Int.floor_mono (by linarith)

lemma round_lt_round_rat {x y : ℚ} (h : x + 1 ≤ y) : round x < round y := by
  have h1 : round x ≤ round (y - 1) := round_mono_rat (by linarith)
  have h2 : round (y - 1 + ((1 : ℤ) : ℚ)) = round (y - 1) + 1 := round_add_int (y - 1) 1
  have h3 : y - 1 + ((1 : ℤ) : ℚ) = y := by push_cast; ring
  rw [h3] at h2
  omega

lemma round2_lt_round2 {x y : ℚ} (h : x * 100 + 1 ≤ y * 100) : round2 x < round2 y := by
  unfold round2
  rw [div_lt_div_iff_of_pos_right (by norm_num)]
  exact_mod_cast round_lt_round_rat h

/-! ## Lemmas about `classify` -/

lemma classify_low_iff (cost : ℚ) : classify cost = CostTier.Low ↔ cost < 5000 := by
  unfold classify
  split_ifs with h1 h2 <;> simp [h1]

lemma classify_moderate_iff (cost : ℚ) :
    classify cost = CostTier.Moderate ↔ 5000 ≤ cost ∧ cost < 15000 := by
  unfold classify
  split_ifs with h1 h2
  · simp
    intro hc
    linarith
  · simp [h2]
  · simp [h2]

lemma classify_high_iff (cost : ℚ) : classify cost = CostTier.High ↔ 15000 ≤ cost := by
  unfold classify
  split_ifs with h1 h2
  · simp
    linarith
  · simp
    linarith [h2.2]
  · simp
    push_neg at h1 h2
    exact h2 h1

end MedApp

namespace MedApp

/-! ## The claims -/

/-- C1: sex encodes Female ↦ 0, Male ↦ 1; smoker encodes No ↦ 0, Yes ↦ 1;
region encodes through its lower-casing as southwest ↦ 0, southeast ↦ 1,
northwest ↦ 2, northeast ↦ 3, so any two spellings with the same
lower-casing (e.g. "SOUTHEAST" and "southeast") encode identically. -/
theorem encoding_table_exact :
    sex_num "Female" = 0 ∧ sex_num "Male" = 1 ∧
    smoker_num "No" = 0 ∧ smoker_num "Yes" = 1 ∧
    (∀ r : String, pyLower r = "southwest" → region_num r = some 0) ∧
    (∀ r : String, pyLower r = "southeast" → region_num r = some 1) ∧
    (∀ r : String, pyLower r = "northwest" → region_num r = some 2) ∧
    (∀ r : String, pyLower r = "northeast" → region_num r = some 3) ∧
    region_num "SOUTHEAST" = region_num "southeast" := by
  refine ⟨rfl, rfl, rfl, rfl, ?_, ?_, ?_, ?_, by decide⟩ <;>
    · intro r hr
      unfold region_num
      rw [hr]
      rfl

/-- C1 witness: the lower-casing hypotheses discharged on concrete spellings. -/
theorem encoding_table_exact_witness :
    region_num "SOUTHEAST" = some 1 ∧ region_num "Northwest" = some 2 :=
  ⟨encoding_table_exact.2.2.2.2.2.1 "SOUTHEAST" (by decide),
   encoding_table_exact.2.2.2.2.2.2.1 "Northwest" (by decide)⟩

/-- C2: `classify` is total on ℚ and returns Low exactly below 5000,
Moderate exactly on [5000, 15000), High exactly from 15000 on; the four
boundary evaluations land as specified. -/
theorem classify_total_and_boundaries :
    (∀ cost : ℚ,
      (classify cost = CostTier.Low ↔ cost < 5000) ∧
      (classify cost = CostTier.Moderate ↔ 5000 ≤ cost ∧ cost < 15000) ∧
      (classify cost = CostTier.High ↔ 15000 ≤ cost)) ∧
    classify 4999.99 = CostTier.Low ∧
    classify 5000 = CostTier.Moderate ∧
    classify 14999.99 = CostTier.Moderate ∧
    classify 15000 = CostTier.High := by
  refine ⟨fun cost =>
    ⟨classify_low_iff cost, classify_moderate_iff cost, classify_high_iff cost⟩,
    ?_, ?_, ?_, ?_⟩ <;> norm_num [classify]

/-- C3 counterexample: a sex outside {Male, Female} (and a smoker outside
{Yes, No}) does not make the encoding step fail — it succeeds, silently
encoding both as 1, so the claim that every out-of-table categorical input
raises an encoding error is false. -/
theorem encode_unknown_sex_no_error :
    encode ⟨175, 70, 30, "Banana", 0, "Maybe", "Southwest"⟩ 0
      = some ⟨30, 1, 0, 0, 1, 0⟩ := by decide

/-- C3 (amended): only the region lookup can fail.  A region whose
lower-casing is outside the table aborts the encoding step (Python:
`KeyError`) and the pipeline never invokes the predictor; any region whose
lower-casing is in the table lets encoding succeed regardless of the sex
and smoker strings. -/
theorem encode_fails_only_on_region :
    (∀ (inp : RawInput) (b : ℚ),
      region_map (pyLower inp.region) = none → encode inp b = none) ∧
    (∀ (inp : RawInput) (b : ℚ),
      region_map (pyLower inp.region) ≠ none → (encode inp b).isSome = true) ∧
    (∀ (st : ProcState) (inp : RawInput),
      region_map (pyLower inp.region) = none → runPipeline st inp = none) := by
  refine ⟨?_, ?_, ?_⟩
  · intro inp b hnone
    unfold encode region_num
    rw [hnone]
    rfl
  · intro inp b hsome
    unfold encode region_num
    cases hmap : region_map (pyLower inp.region) with
    | none => exact absurd hmap hsome
    | some r => rfl
  · intro st inp hnone
    unfold runPipeline encode region_num
    rw [hnone]
    rfl

/-- C3 witness: the hypotheses discharged on a concrete unknown region. -/
theorem encode_fails_only_on_region_witness :
    encode ⟨175, 70, 30, "Male", 0, "No", "Mars"⟩ 0 = none ∧
    runPipeline ⟨fun _ => 9999⟩ ⟨175, 70, 30, "Male", 0, "No", "Mars"⟩ = none :=
  ⟨encode_fails_only_on_region.1 ⟨175, 70, 30, "Male", 0, "No", "Mars"⟩ 0 (by decide),
   encode_fails_only_on_region.2.2 ⟨fun _ => 9999⟩
     ⟨175, 70, 30, "Male", 0, "No", "Mars"⟩ (by decide)⟩

/-- C4: the BMI operation is the formula weight / (height/100)² rounded to
2 decimals, and computeBMI 175 70 = 22.86. -/
theorem computeBMI_formula_and_value :
    (∀ h w : ℚ, computeBMI h w = round2 (w / ((h / 100) ^ 2))) ∧
    computeBMI 175 70 = 22.86 := by
  refine ⟨fun h w => rfl, ?_⟩
  norm_num [computeBMI, round2, round_eq]

/-- C5: when the artifact file is missing (or unreadable or
undeserializable), process startup fails with the fatal error and every
subsequent predict call in that process propagates the failure instead of
producing a prediction. -/
theorem startup_fatal_blocks_predict :
    startProcess none = Except.error StartupError.startupFatal ∧
    ∀ fv : FeatureVector,
      runPredict (startProcess none) fv = Except.error StartupError.startupFatal :=
  ⟨rfl, fun _ => rfl⟩

/-- C6: `predict` is deterministic and stateless — it leaves the process
state unchanged, and a repeated call on the identical feature vector
returns the identical output. -/
theorem predict_deterministic :
    ∀ (st : ProcState) (fv : FeatureVector),
      (predict st fv).2 = st ∧
      predict ((predict st fv).2) fv = predict st fv :=
  fun _ _ => ⟨rfl, rfl⟩

/-- C9: whenever encoding succeeds, the cost the pipeline classifies (and
reports) is exactly the predictor's output on the encoded feature vector —
no transformation, clamping or rounding in between. -/
theorem cost_passed_unchanged :
    ∀ (st : ProcState) (inp : RawInput) (fv : FeatureVector),
      encode inp (computeBMI inp.heightCm inp.weightKg) = some fv →
      runPipeline st inp = some ((predict st fv).1, classify ((predict st fv).1)) := by
  intro st inp fv h
  unfold runPipeline
  rw [h]
  rfl

/-- C9 witness: the encoding hypothesis discharged on a concrete input and
a concrete stub predictor. -/
theorem cost_passed_unchanged_witness :
    runPipeline ⟨fun _ => 7777⟩ ⟨175, 70, 30, "Male", 0, "No", "Southwest"⟩ =
      some (7777, CostTier.Moderate) := by
  have h := cost_passed_unchanged ⟨fun _ => 7777⟩
    ⟨175, 70, 30, "Male", 0, "No", "Southwest"⟩
    ⟨30, 1, computeBMI 175 70, 0, 0, 0⟩ rfl
  norm_num [predict, classify] at h
  exact h

/-- C10: the encoder is total on sex and smoker — every sex string other
than "Female" encodes to 1, and every smoker string other than "No"
encodes to 1; only the region lookup can fail. -/
theorem unknown_sex_smoker_encode_one :
    (∀ s : String, s ≠ "Female" → sex_num s = 1) ∧
    (∀ s : String, s ≠ "No" → smoker_num s = 1) := by
  constructor <;> intro s hs <;> simp [sex_num, smoker_num, hs]

/-- C10 witness: the hypotheses discharged on concrete unknown strings. -/
theorem unknown_sex_smoker_encode_one_witness :
    sex_num "Banana" = 1 ∧ smoker_num "Maybe" = 1 :=
  ⟨unknown_sex_smoker_encode_one.1 "Banana" (by decide),
   unknown_sex_smoker_encode_one.2 "Maybe" (by decide)⟩

lemma round2_mono {x y : ℚ} (h : x ≤ y) : round2 x ≤ round2 y := by
  unfold round2
  have hr : round (x * 100) ≤ round (y * 100) := round_mono_rat (by linarith)
  have hq : ((round (x * 100) : ℤ) : ℚ) ≤ ((round (y * 100) : ℤ) : ℚ) := by
    exact_mod_cast hr
  linarith

/-- C7: over the valid domain (heights in [140, 220] cm, weights in
[40, 150] kg) the 2-decimal-rounded BMI is monotonically increasing in
weight and decreasing in height — weakly for arbitrary rational values,
and strictly on the whole-unit grid the sliders step through. -/
theorem computeBMI_monotone :
    (∀ ht w1 w2 : ℚ, 140 ≤ ht → ht ≤ 220 → w1 ≤ w2 →
      computeBMI ht w1 ≤ computeBMI ht w2) ∧
    (∀ h1 h2 w : ℚ, 140 ≤ h1 → h1 ≤ h2 → h2 ≤ 220 → 0 ≤ w →
      computeBMI h2 w ≤ computeBMI h1 w) ∧
    (∀ ht w1 w2 : ℕ, 140 ≤ ht → ht ≤ 220 → 40 ≤ w1 → w1 < w2 → w2 ≤ 150 →
      computeBMI (ht : ℚ) (w1 : ℚ) < computeBMI (ht : ℚ) (w2 : ℚ)) ∧
    (∀ h1 h2 w : ℕ, 140 ≤ h1 → h1 < h2 → h2 ≤ 220 → 40 ≤ w → w ≤ 150 →
      computeBMI (h2 : ℚ) (w : ℚ) < computeBMI (h1 : ℚ) (w : ℚ)) := by
  refine ⟨?_, ?_, ?_, ?_⟩
  · intro ht w1 w2 hh1 hh2 hw
    apply round2_mono
    have hpos : (0 : ℚ) < (ht / 100) ^ 2 := pow_pos (by linarith) 2
    exact (div_le_div_iff_of_pos_right hpos).mpr hw
  · intro h1 h2 w hh1 hle hh2 hw
    apply round2_mono
    have hpos1 : (0 : ℚ) < (h1 / 100) ^ 2 := pow_pos (by linarith) 2
    have hpos2 : (0 : ℚ) < (h2 / 100) ^ 2 := pow_pos (by linarith) 2
    have hc12 : (h1 / 100) ^ 2 ≤ (h2 / 100) ^ 2 :=
      pow_le_pow_left₀ (by linarith) (by linarith) 2
    rw [div_le_div_iff₀ hpos2 hpos1]
    exact mul_le_mul_of_nonneg_left hc12 hw
  · intro ht w1 w2 hh1 hh2 hw1 hlt hw2
    apply round2_lt_round2
    have hhq : (140 : ℚ) ≤ (ht : ℚ) := by exact_mod_cast hh1
    have hhq2 : (ht : ℚ) ≤ 220 := by exact_mod_cast hh2
    have hpos : (0 : ℚ) < ((ht : ℚ) / 100) ^ 2 := pow_pos (by linarith) 2
    have hcle : ((ht : ℚ) / 100) ^ 2 ≤ 121 / 25 := by
      calc ((ht : ℚ) / 100) ^ 2 ≤ ((11 : ℚ) / 5) ^ 2 :=
            pow_le_pow_left₀ (by linarith) (by linarith) 2
        _ = 121 / 25 := by norm_num
    have hwq : (w1 : ℚ) + 1 ≤ (w2 : ℚ) := by exact_mod_cast hlt
    have hne : ((ht : ℚ) / 100) ^ 2 ≠ 0 := ne_of_gt hpos
    have e1 : (w1 : ℚ) / ((ht : ℚ) / 100) ^ 2 * 100 + 1
        = ((w1 : ℚ) * 100 + ((ht : ℚ) / 100) ^ 2) / ((ht : ℚ) / 100) ^ 2 := by
      field_simp
      try ring
    have e2 : (w2 : ℚ) / ((ht : ℚ) / 100) ^ 2 * 100
        = ((w2 : ℚ) * 100) / ((ht : ℚ) / 100) ^ 2 := by ring
    rw [e1, e2, div_le_div_iff_of_pos_right hpos]
    linarith
  · intro h1 h2 w hh1 hlt hh2 hw1 hw2
    apply round2_lt_round2
    have h1q : (140 : ℚ) ≤ (h1 : ℚ) := by exact_mod_cast hh1
    have hltq : (h1 : ℚ) + 1 ≤ (h2 : ℚ) := by exact_mod_cast hlt
    have h2q : (h2 : ℚ) ≤ 220 := by exact_mod_cast hh2
    have hwq : (40 : ℚ) ≤ (w : ℚ) := by exact_mod_cast hw1
    have hpos1 : (0 : ℚ) < ((h1 : ℚ) / 100) ^ 2 := pow_pos (by linarith) 2
    have hpos2 : (0 : ℚ) < ((h2 : ℚ) / 100) ^ 2 := pow_pos (by linarith) 2
    have hc1le : ((h1 : ℚ) / 100) ^ 2 ≤ 121 / 25 := by
      calc ((h1 : ℚ) / 100) ^ 2 ≤ ((11 : ℚ) / 5) ^ 2 :=
            pow_le_pow_left₀ (by linarith) (by linarith) 2
        _ = 121 / 25 := by norm_num
    have hc2le : ((h2 : ℚ) / 100) ^ 2 ≤ 121 / 25 := by
      calc ((h2 : ℚ) / 100) ^ 2 ≤ ((11 : ℚ) / 5) ^ 2 :=
            pow_le_pow_left₀ (by linarith) (by linarith) 2
        _ = 121 / 25 := by norm_num
    have hdiff : (281 : ℚ) / 10000 ≤ ((h2 : ℚ) / 100) ^ 2 - ((h1 : ℚ) / 100) ^ 2 := by
      have hsq : ((h1 : ℚ) + 1) ^ 2 ≤ (h2 : ℚ) ^ 2 :=
        pow_le_pow_left₀ (by linarith) hltq 2
      have ec1 : ((h1 : ℚ) / 100) ^ 2 = (h1 : ℚ) ^ 2 / 10000 := by ring
      have ec2 : ((h2 : ℚ) / 100) ^ 2 = (h2 : ℚ) ^ 2 / 10000 := by ring
      rw [ec1, ec2]
      nlinarith [hsq, h1q]
    have hw100 : (4000 : ℚ) ≤ (w : ℚ) * 100 := by linarith
    have hprod1 : (4000 : ℚ) * (281 / 10000)
        ≤ ((w : ℚ) * 100) * (((h2 : ℚ) / 100) ^ 2 - ((h1 : ℚ) / 100) ^ 2) :=
      mul_le_mul hw100 hdiff (by norm_num) (by linarith)
    have hprod2 : ((h1 : ℚ) / 100) ^ 2 * ((h2 : ℚ) / 100) ^ 2
        ≤ (121 : ℚ) / 25 * (121 / 25) :=
      mul_le_mul hc1le hc2le (le_of_lt hpos2) (by norm_num)
    have hne2 : ((h2 : ℚ)) ≠ 0 := by
      intro h0
      rw [h0] at hltq
      linarith
    have e1 : (w : ℚ) / ((h2 : ℚ) / 100) ^ 2 * 100 + 1
        = ((w : ℚ) * 100 + ((h2 : ℚ) / 100) ^ 2) / ((h2 : ℚ) / 100) ^ 2 := by
      field_simp
      try ring
    have e2 : (w : ℚ) / ((h1 : ℚ) / 100) ^ 2 * 100
        = ((w : ℚ) * 100) / ((h1 : ℚ) / 100) ^ 2 := by ring
    rw [e1, e2, div_le_div_iff₀ hpos2 hpos1]
    nlinarith [hprod1, hprod2]

/-- C7 witness: the range hypotheses discharged on concrete slider values. -/
theorem computeBMI_monotone_witness :
    computeBMI 175 70 ≤ computeBMI 175 (141 / 2) ∧
    computeBMI 176 70 ≤ computeBMI 175 70 ∧
    computeBMI 175 70 < computeBMI 175 71 ∧
    computeBMI 176 70 < computeBMI 175 70 := by
  refine ⟨?_, ?_, ?_, ?_⟩
  · exact computeBMI_monotone.1 175 70 (141 / 2) (by norm_num) (by norm_num)
      (by norm_num)
  · exact computeBMI_monotone.2.1 175 176 70 (by norm_num) (by norm_num)
      (by norm_num) (by norm_num)
  · exact_mod_cast computeBMI_monotone.2.2.1 175 70 71 (by norm_num) (by norm_num)
      (by norm_num) (by norm_num) (by norm_num)
  · exact_mod_cast computeBMI_monotone.2.2.2 175 176 70 (by norm_num) (by norm_num)
      (by norm_num) (by norm_num) (by norm_num)

/-- C8 counterexample: a non-positive height is not rejected — at height
−175 the BMI computation runs and produces a value, so the claim that
every height ≤ 0 fails with a DomainError is false on this code. -/
theorem computeBMIRun_negative_height_no_error :
    (-175 : ℚ) ≤ 0 ∧ computeBMIRun (-175) 70 = some 22.86 := by
  refine ⟨by norm_num, ?_⟩
  unfold computeBMIRun
  rw [if_neg (by norm_num)]
  norm_num [computeBMI, round2, round_eq]

/-- C8 (amended): the code performs no height domain check.  The BMI step
fails only at height exactly 0 (Python: an uncaught `ZeroDivisionError`,
a crash rather than a surfaced DomainError); every nonzero height —
negative ones included — produces a rounded BMI.  In the app the height
slider's range [140, 220] keeps non-positive heights unreachable. -/
theorem computeBMIRun_fails_iff_zero :
    ∀ hs w : ℚ, computeBMIRun hs w = none ↔ hs = 0 := by
  intro hs w
  have hiff : ((hs / 100) ^ 2 = 0) ↔ hs = 0 := by
    rw [pow_eq_zero_iff (by norm_num : (2 : ℕ) ≠ 0), div_eq_zero_iff]
    norm_num
  unfold computeBMIRun
  split_ifs with hc
  · simp [hiff.mp hc]
  · simp
    exact fun hh => hc (hiff.mpr hh)

end MedApp
